import Mathlib

/-!
Verification of the Express backend in `server.js`: a shallow embedding of
the four HTTP handlers (POST /send-email, GET /api/events,
GET /api/events/:email, POST /events) together with theorems about their
validation, authorization and error behaviour.

External collaborators (the Firestore document store and the Mailgun
provider) are passed to the handlers as function parameters; each handler
additionally records the list of external calls it makes, so that claims
of the form `the provider is invoked exactly once` or `no document is
created` are statable as facts about that trace.
-/

namespace Server

/-- JavaScript values relevant to the truthiness checks and the JSON
bodies handled by `server.js`. A destructured field that is absent from
the request body is `vundef`, matching JS destructuring semantics. -/
inductive JSVal where
  | vundef : JSVal
  | vnull : JSVal
  | vbool : Bool → JSVal
  | vnum : Int → JSVal
  | vstr : String → JSVal
deriving DecidableEq, Repr

/-- JS truthiness, as used by the `if (!field)` validation checks. -/
def truthy : JSVal → Bool
  | .vundef => false
  | .vnull => false
  | .vbool b => b
  | .vnum n => n != 0
  | .vstr s => s != ""

/-- JS string coercion, as used by the template literal in the 403 error
message of POST /send-email. -/
def jsToString : JSVal → String
  | .vundef => "undefined"
  | .vnull => "null"
  | .vbool b => if b then "true" else "false"
  | .vnum n => toString n
  | .vstr s => s

/-- JS `Array.prototype.includes` on an array of strings: strict
equality, so only an identical string value is a member. -/
def includesJS (l : List String) (v : JSVal) : Bool :=
  match v with
  | .vstr s => l.contains s
  | _ => false

/-- The static allow-list `authorizedEmails` from `server.js`. -/
def authorizedEmails : List String :=
  ["wangjun6666666633@gmail.com", "kche0224@student.monash.edu"]

/-- The `data` object built by POST /send-email and handed to
`mailgun.messages().send`. The source field names `from` and `to` are
Lean keywords, so they are embedded as `fromAddr` and `toAddr`. -/
structure MailData where
  fromAddr : String
  toAddr : JSVal
  subject : String
  text : JSVal
deriving DecidableEq, Repr

/-- An event document as built by POST /events (`newEvent` in the
source): exactly the five fields `title`, `start`, `remindAt`,
`createdBy`, `notes`, nothing else. -/
structure EventDoc where
  title : JSVal
  start : JSVal
  remindAt : JSVal
  createdBy : JSVal
  notes : JSVal
deriving DecidableEq, Repr

/-- JSON response bodies produced by `server.js`. `errBody m` is the
body `\x7bsuccess:false, error:m\x7d`; the other constructors carry
`success:true` payloads. A stored event is returned as its
store-assigned id paired with its fields, embedding the JS spread
`\x7bid: doc.id, ...doc.data()\x7d`. -/
inductive JBody where
  | errBody : String → JBody
  | sendOk : String → JBody
  | eventsOk : List (String × EventDoc) → JBody
  | eventOk : String → EventDoc → JBody
deriving DecidableEq, Repr

/-- An HTTP response: status code plus JSON body. `res.json(x)` with no
explicit status is status 200. -/
structure Response where
  status : Nat
  body : JBody
deriving DecidableEq, Repr

/-- External calls a handler can make: one Mailgun dispatch, or one
Firestore `add` on the events collection. -/
inductive Effect where
  | mgSend : MailData → Effect
  | storeAdd : EventDoc → Effect
deriving DecidableEq, Repr

/-- Request body of POST /send-email after destructuring: the two
fields read by the handler (absent fields are `vundef`). -/
structure SendEmailReq where
  email : JSVal
  message : JSVal
deriving DecidableEq, Repr

/-- Request body of POST /events after destructuring: the five fields
read by the handler, plus any additional properties the client supplied
(`extra`), which the handler never reads. -/
structure EventsReq where
  title : JSVal
  start : JSVal
  remindAt : JSVal
  createdBy : JSVal
  notes : JSVal
  extra : List (String × JSVal)
deriving DecidableEq, Repr

/-- The `data` object of POST /send-email for a given Mailgun domain and
request. -/
def mailDataOf (domain : String) (req : SendEmailReq) : MailData :=
  { fromAddr := "Mailgun Sandbox <postmaster@" ++ domain ++ ">"
    toAddr := req.email
    subject := "Library Contact Message"
    text := req.message }

/-- Handler of POST /send-email, embedding lines 80 to 113 of
`server.js`. `authorized` is the allow-list (the deployed server uses
`authorizedEmails`), `provider` is `mailgun.messages().send`, returning
either an error message or a response body. The second component of the
result is the trace of external calls made. -/
def sendEmailHandler (authorized : List String) (domain : String)
    (provider : MailData → Except String String) (req : SendEmailReq) :
    Response × List Effect :=
  if !truthy req.email || !truthy req.message then
    (⟨400, .errBody "Missing fields"⟩, [])
  else if !includesJS authorized req.email then
    (⟨403, .errBody ("The email \"" ++ jsToString req.email ++
      "\" is not authorized in the Mailgun Sandbox.")⟩, [])
  else
    let data := mailDataOf domain req
    match provider data with
    | .error e => (⟨500, .errBody e⟩, [.mgSend data])
    | .ok body => (⟨200, .sendOk body⟩, [.mgSend data])

/-- Handler of GET /api/events, embedding lines 119 to 134 of
`server.js`. `store` is the outcome of reading the whole events
collection: either an error message or the list of documents, each with
its store-assigned id. -/
def getEventsHandler (store : Except String (List (String × EventDoc))) :
    Response :=
  match store with
  | .ok docs => ⟨200, .eventsOk docs⟩
  | .error e => ⟨500, .errBody e⟩

/-- Handler of GET /api/events/:email, embedding lines 140 to 156 of
`server.js`. The Firestore query `where createdBy == email` keeps
exactly the documents whose `createdBy` field is the string `email`
(Firestore equality on a string operand matches only equal strings). -/
def getEventsByEmailHandler
    (store : Except String (List (String × EventDoc))) (email : String) :
    Response :=
  match store with
  | .ok docs =>
      ⟨200, .eventsOk (docs.filter (fun p => p.2.createdBy = .vstr email))⟩
  | .error e => ⟨500, .errBody e⟩

/-- The `newEvent` object built by POST /events: the five fields of the
request, with `notes` replaced by `notes || ""`. -/
def mkNewEvent (req : EventsReq) : EventDoc :=
  { title := req.title
    start := req.start
    remindAt := req.remindAt
    createdBy := req.createdBy
    notes := if truthy req.notes then req.notes else .vstr "" }

/-- Handler of POST /events, embedding lines 162 to 187 of `server.js`.
`add` is `db.collection("events").add`, returning either an error
message or the assigned document id. The second component of the result
is the trace of external calls made. -/
def postEventsHandler (add : EventDoc → Except String String)
    (req : EventsReq) : Response × List Effect :=
  if !truthy req.title || !truthy req.start || !truthy req.remindAt ||
      !truthy req.createdBy then
    (⟨400, .errBody "Missing required fields"⟩, [])
  else
    let newEvent := mkNewEvent req
    match add newEvent with
    | .ok id => (⟨200, .eventOk id newEvent⟩, [.storeAdd newEvent])
    | .error e => (⟨500, .errBody e⟩, [.storeAdd newEvent])

end Server

namespace Server

/-- Helper: any non-200 response of GET /api/events is an error body. -/
theorem getEvents_shape (store : Except String (List (String × EventDoc))) :
    (getEventsHandler store).status ≠ 200 →
    ∃ m, (getEventsHandler store).body = .errBody m := by
  cases store <;> simp [getEventsHandler]

/-- Helper: any non-200 response of GET /api/events/:email is an error
body. -/
theorem getEventsByEmail_shape (store : Except String (List (String × EventDoc)))
    (email : String) :
    (getEventsByEmailHandler store email).status ≠ 200 →
    ∃ m, (getEventsByEmailHandler store email).body = .errBody m := by
  cases store <;> simp [getEventsByEmailHandler]

/-- Helper: any non-200 response of POST /events is an error body. -/
theorem postEvents_shape (add : EventDoc → Except String String)
    (req : EventsReq) :
    (postEventsHandler add req).1.status ≠ 200 →
    ∃ m, (postEventsHandler add req).1.body = .errBody m := by
  by_cases hv : (!truthy req.title || !truthy req.start || !truthy req.remindAt ||
      !truthy req.createdBy) = true
  · simp [postEventsHandler, hv]
  · cases h : add (mkNewEvent req) <;> simp [postEventsHandler, hv, h]

/-- Helper: any non-200 response of POST /send-email is an error body. -/
theorem sendEmail_shape (authorized : List String) (domain : String)
    (provider : MailData → Except String String) (req : SendEmailReq) :
    (sendEmailHandler authorized domain provider req).1.status ≠ 200 →
    ∃ m, (sendEmailHandler authorized domain provider req).1.body = .errBody m := by
  by_cases hv : (!truthy req.email || !truthy req.message) = true
  · simp [sendEmailHandler, hv]
  · by_cases ha : includesJS authorized req.email = true
    · cases h : provider (mailDataOf domain req) <;>
        simp [sendEmailHandler, hv, ha, h]
    · simp [sendEmailHandler, hv, ha]

end Server

namespace Server

/-- C1, as frozen, is false: the counterexample sends
email = "not-listed@x.com" (not in the allow-list) with message = "",
and the response is 400, not 403, because the presence check runs
before the allow-list check and an empty message is falsy. -/
theorem sendEmail_unauthorized_counterexample :
    includesJS authorizedEmails (.vstr "not-listed@x.com") = false ∧
    (sendEmailHandler authorizedEmails "sandbox.mailgun.org"
      (fun _ => .ok "queued") ⟨.vstr "not-listed@x.com", .vstr ""⟩).1.status = 400 ∧
    (sendEmailHandler authorizedEmails "sandbox.mailgun.org"
      (fun _ => .ok "queued") ⟨.vstr "not-listed@x.com", .vstr ""⟩).1.status ≠ 403 := by
  refine ⟨by decide, rfl, by decide⟩

/-- C1 (amended): for every POST /send-email request whose `email` and
`message` are both present and truthy, if `email` is not in the static
allow-list then the response is 403 with the error body
`The email "<address>" is not authorized in the Mailgun Sandbox.`
(`errBody` is the body with success:false), and no external call is
made. -/
theorem sendEmail_unauthorized_403 (domain : String)
    (provider : MailData → Except String String) (req : SendEmailReq)
    (he : truthy req.email = true) (hm : truthy req.message = true)
    (ha : includesJS authorizedEmails req.email = false) :
    sendEmailHandler authorizedEmails domain provider req =
      (⟨403, .errBody ("The email \"" ++ jsToString req.email ++
        "\" is not authorized in the Mailgun Sandbox.")⟩, []) := by
  simp [sendEmailHandler, he, hm, ha]

/-- C1 witness: the concrete scenario of the spec, with a non-empty
message. -/
theorem sendEmail_unauthorized_403_witness :
    sendEmailHandler authorizedEmails "sandbox.mailgun.org"
      (fun _ => .ok "queued") ⟨.vstr "not-listed@x.com", .vstr "hi"⟩ =
      (⟨403, .errBody
        "The email \"not-listed@x.com\" is not authorized in the Mailgun Sandbox."⟩,
       []) :=
  sendEmail_unauthorized_403 "sandbox.mailgun.org" (fun _ => .ok "queued")
    ⟨.vstr "not-listed@x.com", .vstr "hi"⟩ (by decide) (by decide) (by decide)

/-- C2: on a successful store read of the N documents `docs`,
GET /api/events returns 200 with all of them in store order, and
GET /api/events/:email returns 200 with exactly the sublist whose
`createdBy` field is the string `email` (exact, case-sensitive match:
`JSVal` equality), each document being its store-assigned id paired
with its stored fields. -/
theorem getEvents_filter_correct (docs : List (String × EventDoc))
    (email : String) :
    getEventsHandler (.ok docs) = ⟨200, .eventsOk docs⟩ ∧
    getEventsByEmailHandler (.ok docs) email =
      ⟨200, .eventsOk (docs.filter (fun p => p.2.createdBy = .vstr email))⟩ ∧
    ∀ p : String × EventDoc,
      p ∈ docs.filter (fun p => p.2.createdBy = .vstr email) ↔
        p ∈ docs ∧ p.2.createdBy = .vstr email := by
  refine ⟨rfl, rfl, fun p => ?_⟩
  simp [List.mem_filter]

/-- C2 witness: two documents with different creators and one with a
case-variant creator; only the exact match is returned. -/
theorem getEvents_filter_correct_witness :
    getEventsByEmailHandler
      (.ok [("d1", ⟨.vstr "A", .vstr "s", .vstr "r", .vstr "a@x.com", .vstr ""⟩),
            ("d2", ⟨.vstr "B", .vstr "s", .vstr "r", .vstr "b@x.com", .vstr ""⟩),
            ("d3", ⟨.vstr "C", .vstr "s", .vstr "r", .vstr "A@X.COM", .vstr ""⟩)])
      "a@x.com" =
      ⟨200, .eventsOk
        [("d1", ⟨.vstr "A", .vstr "s", .vstr "r", .vstr "a@x.com", .vstr ""⟩)]⟩ :=
  (getEvents_filter_correct
    [("d1", ⟨.vstr "A", .vstr "s", .vstr "r", .vstr "a@x.com", .vstr ""⟩),
     ("d2", ⟨.vstr "B", .vstr "s", .vstr "r", .vstr "b@x.com", .vstr ""⟩),
     ("d3", ⟨.vstr "C", .vstr "s", .vstr "r", .vstr "A@X.COM", .vstr ""⟩)]
    "a@x.com").2.1

/-- C3: a POST /events request with all four required fields truthy and
`notes` absent (`vundef`), whose store insertion succeeds with the
assigned id `id`, stores a document whose `notes` field is the empty
string and responds 200 with success:true, the assigned id, and the
stored fields, whose `notes` is the empty string. -/
theorem postEvents_notes_default (add : EventDoc → Except String String)
    (req : EventsReq) (id : String)
    (ht : truthy req.title = true) (hs : truthy req.start = true)
    (hr : truthy req.remindAt = true) (hc : truthy req.createdBy = true)
    (hn : req.notes = .vundef)
    (hadd : add (mkNewEvent req) = .ok id) :
    postEventsHandler add req =
      (⟨200, .eventOk id (mkNewEvent req)⟩, [.storeAdd (mkNewEvent req)]) ∧
    (mkNewEvent req).notes = .vstr "" := by
  constructor
  · simp [postEventsHandler, ht, hs, hr, hc, hadd]
  · simp [mkNewEvent, hn, truthy]

/-- C3 witness: the concrete scenario of the spec. -/
theorem postEvents_notes_default_witness :
    postEventsHandler (fun _ => .ok "abc123")
      ⟨.vstr "Talk", .vstr "2024-01-01T10:00", .vstr "2024-01-01T09:00",
        .vstr "a@x.com", .vundef, []⟩ =
      (⟨200, .eventOk "abc123"
        ⟨.vstr "Talk", .vstr "2024-01-01T10:00", .vstr "2024-01-01T09:00",
          .vstr "a@x.com", .vstr ""⟩⟩,
       [.storeAdd ⟨.vstr "Talk", .vstr "2024-01-01T10:00",
          .vstr "2024-01-01T09:00", .vstr "a@x.com", .vstr ""⟩]) ∧
    (mkNewEvent ⟨.vstr "Talk", .vstr "2024-01-01T10:00",
      .vstr "2024-01-01T09:00", .vstr "a@x.com", .vundef, []⟩).notes =
      .vstr "" :=
  postEvents_notes_default (fun _ => .ok "abc123")
    ⟨.vstr "Talk", .vstr "2024-01-01T10:00", .vstr "2024-01-01T09:00",
      .vstr "a@x.com", .vundef, []⟩ "abc123"
    (by decide) (by decide) (by decide) (by decide) rfl rfl

end Server

namespace Server

/-- C4: a POST /events request in which any of the four required fields
is absent (`vundef` after destructuring) gets a 400 error response, for
every store `add` function, and the trace of external calls is empty:
the store add operation is never invoked and the store is unchanged. -/
theorem postEvents_missing_field_400 (add : EventDoc → Except String String)
    (req : EventsReq)
    (h : req.title = .vundef ∨ req.start = .vundef ∨ req.remindAt = .vundef ∨
      req.createdBy = .vundef) :
    postEventsHandler add req =
      (⟨400, .errBody "Missing required fields"⟩, []) := by
  rcases h with h | h | h | h <;> simp [postEventsHandler, h, truthy]

/-- C4 witness: a request missing `createdBy`. -/
theorem postEvents_missing_field_400_witness :
    postEventsHandler (fun _ => .ok "abc123")
      ⟨.vstr "Talk", .vstr "2024-01-01T10:00", .vstr "2024-01-01T09:00",
        .vundef, .vstr "n", []⟩ =
      (⟨400, .errBody "Missing required fields"⟩, []) :=
  postEvents_missing_field_400 (fun _ => .ok "abc123")
    ⟨.vstr "Talk", .vstr "2024-01-01T10:00", .vstr "2024-01-01T09:00",
      .vundef, .vstr "n", []⟩ (Or.inr (Or.inr (Or.inr rfl)))

/-- C5: a POST /send-email request in which `email` or `message` is
absent (`vundef` after destructuring) gets a 400 error response with an
empty trace, uniformly in the allow-list and the provider: neither the
allow-list membership test nor the provider influences the outcome, and
the provider is never invoked. -/
theorem sendEmail_missing_field_400 (authorized : List String)
    (domain : String) (provider : MailData → Except String String)
    (req : SendEmailReq)
    (h : req.email = .vundef ∨ req.message = .vundef) :
    sendEmailHandler authorized domain provider req =
      (⟨400, .errBody "Missing fields"⟩, []) := by
  rcases h with h | h <;> simp [sendEmailHandler, h, truthy]

/-- C5 witness: a request missing `message`. -/
theorem sendEmail_missing_field_400_witness :
    sendEmailHandler authorizedEmails "sandbox.mailgun.org"
      (fun _ => .ok "queued") ⟨.vstr "kche0224@student.monash.edu", .vundef⟩ =
      (⟨400, .errBody "Missing fields"⟩, []) :=
  sendEmail_missing_field_400 authorizedEmails "sandbox.mailgun.org"
    (fun _ => .ok "queued") ⟨.vstr "kche0224@student.monash.edu", .vundef⟩
    (Or.inr rfl)

/-- C6: for a POST /send-email request whose `email` is one of the two
allow-listed addresses and whose `message` is truthy, the trace is the
one-element list of a single provider call whose `to` is the request
email, whose `text` is the request message, with the fixed subject
`Library Contact Message` and the fixed sender
`Mailgun Sandbox <postmaster@domain>`, whatever the provider returns. -/
theorem sendEmail_provider_called_once (domain : String)
    (provider : MailData → Except String String) (req : SendEmailReq)
    (he : req.email = .vstr "wangjun6666666633@gmail.com" ∨
      req.email = .vstr "kche0224@student.monash.edu")
    (hm : truthy req.message = true) :
    (sendEmailHandler authorizedEmails domain provider req).2 =
      [.mgSend { fromAddr := "Mailgun Sandbox <postmaster@" ++ domain ++ ">",
                 toAddr := req.email,
                 subject := "Library Contact Message",
                 text := req.message }] := by
  have hemail : truthy req.email = true := by
    rcases he with h | h <;> simp [h, truthy]
  have hauth : includesJS authorizedEmails req.email = true := by
    rcases he with h | h <;> simp [h, includesJS, authorizedEmails]
  cases hp : provider (mailDataOf domain req) <;>
    simp only [mailDataOf] at hp <;>
    simp [sendEmailHandler, hemail, hm, hauth, hp, mailDataOf]

/-- C6 witness: a concrete allow-listed send. -/
theorem sendEmail_provider_called_once_witness :
    (sendEmailHandler authorizedEmails "sandbox.mailgun.org"
      (fun _ => .ok "queued")
      ⟨.vstr "wangjun6666666633@gmail.com", .vstr "hello"⟩).2 =
      [.mgSend { fromAddr := "Mailgun Sandbox <postmaster@sandbox.mailgun.org>",
                 toAddr := .vstr "wangjun6666666633@gmail.com",
                 subject := "Library Contact Message",
                 text := .vstr "hello" }] :=
  sendEmail_provider_called_once "sandbox.mailgun.org" (fun _ => .ok "queued")
    ⟨.vstr "wangjun6666666633@gmail.com", .vstr "hello"⟩ (Or.inl rfl)
    (by decide)

end Server

namespace Server

/-- C7: failed external calls surface as 500 with the underlying error
message, with a single attempt (trace of length one, no retry): store
read failures on both GET endpoints, store insert failures on
POST /events, and provider failures on POST /send-email; moreover every
non-200 response of every handler has the error body shape
(success:false with an error message). -/
theorem error_responses_surfaced :
    (∀ e : String, getEventsHandler (.error e) = ⟨500, .errBody e⟩) ∧
    (∀ e email : String,
      getEventsByEmailHandler (.error e) email = ⟨500, .errBody e⟩) ∧
    (∀ (add : EventDoc → Except String String) (req : EventsReq) (e : String),
      truthy req.title = true → truthy req.start = true →
      truthy req.remindAt = true → truthy req.createdBy = true →
      add (mkNewEvent req) = .error e →
      postEventsHandler add req =
        (⟨500, .errBody e⟩, [.storeAdd (mkNewEvent req)])) ∧
    (∀ (domain : String) (provider : MailData → Except String String)
        (req : SendEmailReq) (e : String),
      truthy req.email = true → truthy req.message = true →
      includesJS authorizedEmails req.email = true →
      provider (mailDataOf domain req) = .error e →
      sendEmailHandler authorizedEmails domain provider req =
        (⟨500, .errBody e⟩, [.mgSend (mailDataOf domain req)])) ∧
    (∀ store, (getEventsHandler store).status ≠ 200 →
      ∃ m, (getEventsHandler store).body = .errBody m) ∧
    (∀ store email, (getEventsByEmailHandler store email).status ≠ 200 →
      ∃ m, (getEventsByEmailHandler store email).body = .errBody m) ∧
    (∀ (add : EventDoc → Except String String) (req : EventsReq),
      (postEventsHandler add req).1.status ≠ 200 →
      ∃ m, (postEventsHandler add req).1.body = .errBody m) ∧
    (∀ (authorized : List String) (domain : String)
        (provider : MailData → Except String String) (req : SendEmailReq),
      (sendEmailHandler authorized domain provider req).1.status ≠ 200 →
      ∃ m, (sendEmailHandler authorized domain provider req).1.body =
        .errBody m) := by
  refine ⟨fun e => rfl, fun e email => rfl, ?_, ?_,
    getEvents_shape, getEventsByEmail_shape, postEvents_shape, sendEmail_shape⟩
  · intro add req e ht hs hr hc hadd
    simp [postEventsHandler, ht, hs, hr, hc, hadd]
  · intro domain provider req e he hm ha hp
    simp [sendEmailHandler, he, hm, ha, hp]

/-- C7 witness: a store read failure, a store insert failure and a
provider failure, each surfaced as a 500 error body. -/
theorem error_responses_surfaced_witness :
    getEventsHandler (.error "boom") = ⟨500, .errBody "boom"⟩ ∧
    postEventsHandler (fun _ => .error "db down")
      ⟨.vstr "T", .vstr "s", .vstr "r", .vstr "c@x.com", .vundef, []⟩ =
      (⟨500, .errBody "db down"⟩,
       [.storeAdd ⟨.vstr "T", .vstr "s", .vstr "r", .vstr "c@x.com",
          .vstr ""⟩]) ∧
    sendEmailHandler authorizedEmails "sandbox.mailgun.org"
      (fun _ => .error "mg down")
      ⟨.vstr "kche0224@student.monash.edu", .vstr "hi"⟩ =
      (⟨500, .errBody "mg down"⟩,
       [.mgSend (mailDataOf "sandbox.mailgun.org"
          ⟨.vstr "kche0224@student.monash.edu", .vstr "hi"⟩)]) :=
  ⟨error_responses_surfaced.1 "boom",
   error_responses_surfaced.2.2.1 (fun _ => .error "db down")
     ⟨.vstr "T", .vstr "s", .vstr "r", .vstr "c@x.com", .vundef, []⟩
     "db down" (by decide) (by decide) (by decide) (by decide) rfl,
   error_responses_surfaced.2.2.2.1 "sandbox.mailgun.org"
     (fun _ => .error "mg down")
     ⟨.vstr "kche0224@student.monash.edu", .vstr "hi"⟩ "mg down"
     (by decide) (by decide) (by decide) rfl⟩

/-- C8: the presence checks are truthiness checks: a field that is
present but falsy (empty string, zero, false, null) is rejected with
the same 400 error response and empty trace as an absent field, on both
POST /send-email and POST /events. -/
theorem falsy_fields_rejected :
    (∀ (authorized : List String) (domain : String)
        (provider : MailData → Except String String) (req : SendEmailReq),
      truthy req.email = false ∨ truthy req.message = false →
      sendEmailHandler authorized domain provider req =
        (⟨400, .errBody "Missing fields"⟩, [])) ∧
    (∀ (add : EventDoc → Except String String) (req : EventsReq),
      truthy req.title = false ∨ truthy req.start = false ∨
        truthy req.remindAt = false ∨ truthy req.createdBy = false →
      postEventsHandler add req =
        (⟨400, .errBody "Missing required fields"⟩, [])) := by
  constructor
  · intro authorized domain provider req h
    rcases h with h | h <;> simp [sendEmailHandler, h]
  · intro add req h
    rcases h with h | h | h | h <;> simp [postEventsHandler, h]

/-- C8 witness: an empty-string email and a zero-valued title are both
rejected exactly like absent fields. -/
theorem falsy_fields_rejected_witness :
    sendEmailHandler authorizedEmails "sandbox.mailgun.org"
      (fun _ => .ok "queued") ⟨.vstr "", .vstr "hi"⟩ =
      (⟨400, .errBody "Missing fields"⟩, []) ∧
    postEventsHandler (fun _ => .ok "abc123")
      ⟨.vnum 0, .vstr "s", .vstr "r", .vstr "c@x.com", .vundef, []⟩ =
      (⟨400, .errBody "Missing required fields"⟩, []) :=
  ⟨falsy_fields_rejected.1 authorizedEmails "sandbox.mailgun.org"
     (fun _ => .ok "queued") ⟨.vstr "", .vstr "hi"⟩ (Or.inl (by decide)),
   falsy_fields_rejected.2 (fun _ => .ok "abc123")
     ⟨.vnum 0, .vstr "s", .vstr "r", .vstr "c@x.com", .vundef, []⟩
     (Or.inl (by decide))⟩

/-- C9: the inserted document is built from exactly the five named
fields of the request (the `EventDoc` record has no others): the whole
outcome of POST /events is independent of any additional properties in
the request body, the stored document is literally the five request
fields with `notes` defaulted, and a present-but-falsy `notes` is
replaced by the empty string. -/
theorem postEvents_exact_fields :
    (∀ (add : EventDoc → Except String String) (req : EventsReq)
        (e1 e2 : List (String × JSVal)),
      postEventsHandler add { req with extra := e1 } =
        postEventsHandler add { req with extra := e2 }) ∧
    (∀ req : EventsReq, mkNewEvent req =
      ⟨req.title, req.start, req.remindAt, req.createdBy,
        if truthy req.notes then req.notes else .vstr ""⟩) ∧
    (∀ req : EventsReq, truthy req.notes = false →
      (mkNewEvent req).notes = .vstr "") :=
  ⟨fun _ _ _ _ => rfl, fun _ => rfl,
   fun req h => by simp [mkNewEvent, h]⟩

/-- C9 witness: an extra property and an empty-string `notes` leave the
stored fields unchanged with `notes` equal to the empty string. -/
theorem postEvents_exact_fields_witness :
    postEventsHandler (fun _ => .ok "abc123")
      ⟨.vstr "T", .vstr "s", .vstr "r", .vstr "c@x.com", .vstr "",
        [("isAdmin", .vbool true)]⟩ =
      postEventsHandler (fun _ => .ok "abc123")
        ⟨.vstr "T", .vstr "s", .vstr "r", .vstr "c@x.com", .vstr "", []⟩ ∧
    (mkNewEvent ⟨.vstr "T", .vstr "s", .vstr "r", .vstr "c@x.com",
      .vstr "", [("isAdmin", .vbool true)]⟩).notes = .vstr "" :=
  ⟨postEvents_exact_fields.1 (fun _ => .ok "abc123")
     ⟨.vstr "T", .vstr "s", .vstr "r", .vstr "c@x.com", .vstr "", []⟩
     [("isAdmin", .vbool true)] [],
   postEvents_exact_fields.2.2
     ⟨.vstr "T", .vstr "s", .vstr "r", .vstr "c@x.com", .vstr "",
       [("isAdmin", .vbool true)]⟩ (by decide)⟩

/-- C10: whenever POST /events responds 200 with an `event` payload,
the trace is exactly one store insertion of that very document: the
echoed event is field-for-field the document handed to the store. -/
theorem postEvents_echo_equals_stored (add : EventDoc → Except String String)
    (req : EventsReq) (id : String) (ev : EventDoc) (tr : List Effect)
    (h : postEventsHandler add req = (⟨200, .eventOk id ev⟩, tr)) :
    tr = [.storeAdd ev] := by
  by_cases hv : (!truthy req.title || !truthy req.start ||
      !truthy req.remindAt || !truthy req.createdBy) = true
  · simp [postEventsHandler, hv] at h
  · cases hp : add (mkNewEvent req) with
    | error e => simp [postEventsHandler, hv, hp] at h
    | ok i =>
        simp [postEventsHandler, hv, hp, Prod.ext_iff, Response.mk.injEq] at h
        obtain ⟨⟨-, h2⟩, h3⟩ := h
        rw [← h3, h2]

/-- C10 witness: a concrete successful insertion whose echoed event is
the stored document. -/
theorem postEvents_echo_equals_stored_witness :
    ([Effect.storeAdd ⟨.vstr "Talk", .vstr "s", .vstr "r", .vstr "a@x.com",
        .vstr ""⟩] : List Effect) =
      [.storeAdd ⟨.vstr "Talk", .vstr "s", .vstr "r", .vstr "a@x.com",
        .vstr ""⟩] :=
  postEvents_echo_equals_stored (fun _ => .ok "abc123")
    ⟨.vstr "Talk", .vstr "s", .vstr "r", .vstr "a@x.com", .vundef, []⟩
    "abc123" ⟨.vstr "Talk", .vstr "s", .vstr "r", .vstr "a@x.com", .vstr ""⟩
    [.storeAdd ⟨.vstr "Talk", .vstr "s", .vstr "r", .vstr "a@x.com",
      .vstr ""⟩] (by decide)

end Server
